import Mathlib

/-!
Verification development for the SimpleBooth camera layer
(`camera_utils.py` and `camera_pi.py`).

The Python code talks to real hardware through cv2 / picamera / picamera2.
We embed it shallowly: every hardware interaction is an input supplied by
the environment (a `BackendBehavior`, a `LoopIter`, a `StreamEnv`, ...),
and every Python method becomes a pure Lean function from the current
session state and the environment inputs to the new state plus the
observable effects (return value, number of reconnect invocations, number
of capture threads started, bytes written, ...).

Machine details kept faithful:
* the resolution acceptance test in `_initialize_camera` (and the copy in
  `detect_cameras`) is `frame.shape[1] >= test_width * 0.9` and
  `frame.shape[0] >= test_height * 0.9`; for the three candidate widths
  and heights in the source (1920, 1280, 640 / 1080, 720, 480) the float
  products `test_* * 0.9` are exact IEEE doubles with integral value, so
  the test is exactly the integer comparison `9 * test <= 10 * actual`,
  which is how we write it;
* JPEG encoding (`cv2.imencode` at quality 85) is opaque in the source, so
  an encoded image is represented as the pair of the quality constant and
  the raw frame it came from;
* the consecutive read-error threshold is the literal `max_errors = 10`.
-/

/-- Raw frame as returned by a backend `read()`: cv2 exposes the pixel
array, of which the code inspects `shape[1]` (width) and `shape[0]`
(height); `data` stands for the pixel contents. -/
structure Frame where
  width : Nat
  height : Nat
  data : Nat
deriving DecidableEq

/-- Result of `cv2.imencode(".jpg", frame, [IMWRITE_JPEG_QUALITY, q])`:
encoding is opaque in the source, represented as the quality together
with the frame that was encoded. -/
structure EncodedImage where
  quality : Nat
  image : Frame
deriving DecidableEq

/-- Opaque JPEG encoding step used by every capture loop in the source. -/
def imencodeJpg (quality : Nat) (f : Frame) : EncodedImage :=
  { quality := quality, image := f }

/-- Environment answer for one resolution probe in `_initialize_camera`:
after `cap.set(...)` the code reads back `CAP_PROP_FRAME_WIDTH` and
`CAP_PROP_FRAME_HEIGHT` (`actualWidth`, `actualHeight`) and then performs
one `cap.read()` (`readFrame`; `none` models `ret` false or a `None`
frame). -/
structure ProbeResult where
  actualWidth : Nat
  actualHeight : Nat
  readFrame : Option Frame
deriving DecidableEq

/-- Environment model of one cv2 backend tried by
`UsbCamera._initialize_camera`: whether `VideoCapture(id, backend)`
reports `isOpened()`, the probe outcome for each requested resolution,
and the outcome of the final stability `read()` on line 132. -/
structure BackendBehavior where
  opens : Bool
  probe : Nat → Nat → ProbeResult
  verifyRead : Option Frame

/-- Candidate list from `_initialize_camera` lines 106-110 (the copy in
`detect_cameras` lines 23-27 uses the same dimensions without labels). -/
def resolutionsToTest : List (Nat × Nat × String) :=
  [(1920, 1080, "Full HD"), (1280, 720, "HD"), (640, 480, "VGA")]

/-- Acceptance test on line 120 of `camera_utils.py`:
`ret and frame is not None and frame.shape[1] >= test_width * 0.9 and
frame.shape[0] >= test_height * 0.9`. Note it compares the dimensions of
the frame returned by `read()`, not the read-back `actual_width` and
`actual_height`. The `* 0.9` float products are exact integers for every
candidate in `resolutionsToTest`, hence the integer form. -/
def acceptFrame (reqW reqH : Nat) (rd : Option Frame) : Bool :=
  match rd with
  | none => false
  | some f => decide (reqW * 9 ≤ f.width * 10) && decide (reqH * 9 ≤ f.height * 10)

/-- Resolution negotiation loop, lines 112-127 of `camera_utils.py`: walk
the candidates in order; for each, probe and read once; on the first
accepted candidate stop and record `(actual_width, actual_height, name)`.
The second component is the list of candidates that were actually probed
(the code logs one line per probed candidate). -/
def negotiateCandidates (b : BackendBehavior) :
    List (Nat × Nat × String) → Option (Nat × Nat × String) × List (Nat × Nat)
  | [] => (none, [])
  | (w, h, nm) :: rest =>
    let r := b.probe w h
    if acceptFrame w h r.readFrame then
      (some (r.actualWidth, r.actualHeight, nm), [(w, h)])
    else
      let o := negotiateCandidates b rest
      (o.1, (w, h) :: o.2)

/-- Whether the negotiation loop accepts candidate `c` when probing
backend `b` (the exact test of `negotiateCandidates`). -/
def candAccept (b : BackendBehavior) (c : Nat × Nat × String) : Bool :=
  acceptFrame c.1 c.2.1 (b.probe c.1 c.2.1).readFrame

/-- Resolution recorded by the code when candidate `c` is accepted:
the read-back `actual_width`, `actual_height` and the candidate label. -/
def candResult (b : BackendBehavior) (c : Nat × Nat × String) : Nat × Nat × String :=
  ((b.probe c.1 c.2.1).actualWidth, (b.probe c.1 c.2.1).actualHeight, c.2.2)

/-- One failed backend attempt inside `_initialize_camera`, recording how
far it got and whether `release()` was called on its handle before moving
on (the code releases in each of the three failure branches: not opened,
no working resolution, unstable verification read). -/
structure Attempt where
  opened : Bool
  negotiated : Bool
  verified : Bool
  released : Bool
deriving DecidableEq

/-- Outcome of walking the backend list in `_initialize_camera`:
the selected backend (its position in the list plus the negotiated
resolution) if any, and the trace of failed attempts that preceded it. -/
structure RunOutcome where
  selected : Option (Nat × (Nat × Nat × String))
  failures : List Attempt
deriving DecidableEq

/-- Backend loop of `_initialize_camera` lines 91-149: for each backend
open, negotiate, verify with one more read; any failure releases the
handle and continues with the next backend; the first backend passing all
three steps is selected. -/
def runBackends : List BackendBehavior → RunOutcome
  | [] => { selected := none, failures := [] }
  | b :: rest =>
    if b.opens then
      match (negotiateCandidates b resolutionsToTest).1 with
      | some res =>
        match b.verifyRead with
        | some _ => { selected := some (0, res), failures := [] }
        | none =>
          let o := runBackends rest
          { selected := o.selected.map (fun p => (p.1 + 1, p.2)),
            failures := { opened := true, negotiated := true, verified := false, released := true } :: o.failures }
      | none =>
        let o := runBackends rest
        { selected := o.selected.map (fun p => (p.1 + 1, p.2)),
          failures := { opened := true, negotiated := false, verified := false, released := true } :: o.failures }
    else
      let o := runBackends rest
      { selected := o.selected.map (fun p => (p.1 + 1, p.2)),
        failures := { opened := false, negotiated := false, verified := false, released := true } :: o.failures }

/-- One backend passes all three steps of `_initialize_camera`:
`isOpened()`, a working resolution, and the stability read. -/
def backendQualifies (b : BackendBehavior) : Bool :=
  b.opens && (negotiateCandidates b resolutionsToTest).1.isSome && b.verifyRead.isSome

/-- Negotiated resolution the code stores for a qualifying backend. -/
def negotiatedOf (b : BackendBehavior) : Nat × Nat × String :=
  ((negotiateCandidates b resolutionsToTest).1).getD (0, 0, "")

/-- Error string assigned to `self.error` on line 150 when every backend
failed; it is one fixed sentence and carries no per-backend detail. -/
def usbAllBackendsError (camId : Nat) : String :=
  "Impossible d\x27ouvrir la caméra " ++ toString camId ++ " avec tous les backends testés"

/-- Return value of `_initialize_camera` enriched with the selected
backend position and negotiated resolution (the code exposes them through
`self.camera` and its configuration; the boolean return is `success`
versus `failure`). -/
inductive InitResult where
  | success (idx : Nat) (negotiated : Nat × Nat × String)
  | failure (err : String)
deriving DecidableEq

/-- Functional core of `UsbCamera._initialize_camera`. -/
def initCamera (camId : Nat) (backends : List BackendBehavior) : InitResult :=
  match (runBackends backends).selected with
  | some (i, res) => InitResult.success i res
  | none => InitResult.failure (usbAllBackendsError camId)

/-- Classification of a failed attempt, mirroring the three distinct log
messages the code emits (cannot open / no working resolution / unstable
read). -/
def attemptReason (a : Attempt) : String :=
  if a.opened = false then "open failed"
  else if a.negotiated = false then "no working resolution"
  else "unstable read"

/-- Failure reasons of all failed attempts of a run. -/
def failureReasons (backends : List BackendBehavior) : List String :=
  ((runBackends backends).failures).map attemptReason

/-- Mutable state of a `UsbCamera` object: `cameraOpen` is `none` when
`self.camera is None`, `some b` when a `VideoCapture` object is
referenced with `isOpened() = b`; `threadCount` counts capture-loop
threads that have been started and have not observed `is_running = False`
yet; `frame` is the shared encoded-frame buffer; `err` is `self.error`. -/
structure Session where
  cameraOpen : Option Bool
  isRunning : Bool
  threadCount : Nat
  frame : Option EncodedImage
  err : Option String
deriving DecidableEq

/-- State of a freshly constructed `UsbCamera` (its `__init__`). -/
def usbNew : Session :=
  { cameraOpen := none, isRunning := false, threadCount := 0, frame := none, err := none }

/-- State effect of `_initialize_camera`: on success the selected handle
is stored open, `is_running` is set and a new capture-loop thread is
started; on total failure `self.error` is set and `self.camera` is left
referencing the last attempted (already released, hence not open)
capture object. -/
def initCameraSt (s : Session) (camId : Nat) (backends : List BackendBehavior) :
    Session × Bool :=
  match (runBackends backends).selected with
  | some _ =>
    ({ s with cameraOpen := some true, isRunning := true, threadCount := s.threadCount + 1 }, true)
  | none =>
    ({ s with cameraOpen := if backends.isEmpty then s.cameraOpen else some false,
              err := some (usbAllBackendsError camId) }, false)

/-- `UsbCamera.start`, lines 84-87: an already running session returns
`True` immediately, otherwise `_initialize_camera` runs. -/
def usbStart (s : Session) (camId : Nat) (backends : List BackendBehavior) :
    Session × Bool :=
  if s.isRunning then (s, true) else initCameraSt s camId backends

/-- `UsbCamera._reconnect`, lines 154-160: release and drop the current
handle, wait, then run `_initialize_camera` again. -/
def usbReconnect (s : Session) (camId : Nat) (backends : List BackendBehavior) :
    Session × Bool :=
  initCameraSt { s with cameraOpen := none } camId backends

/-- `UsbCamera.get_frame`, lines 195-197: return the buffered encoded
frame under the lock. -/
def getFrame (s : Session) : Option EncodedImage :=
  s.frame

/-- `UsbCamera.stop`, lines 199-205: clear the running flag, join the
capture threads (they exit at the next loop-top check), release the
handle; the released `VideoCapture` object stays referenced. -/
def usbStop (s : Session) : Session :=
  { s with isRunning := false, threadCount := 0,
           cameraOpen := s.cameraOpen.map (fun _ => false) }

/-- Stopped and empty session as the claims describe it: running flag
cleared, no live capture thread, no open handle. -/
def usbStopped (s : Session) : Prop :=
  s.isRunning = false ∧ s.threadCount = 0 ∧ s.cameraOpen ≠ some true

/-- Consecutive read-error threshold, `max_errors = 10` on line 164. -/
def maxErrors : Nat := 10

/-- Environment inputs consumed by one iteration of `_capture_loop`:
the outcome of `camera.read()` (if the loop reaches it) and the backend
environment that `_initialize_camera` would see if `_reconnect` is
invoked during this iteration. -/
structure LoopIter where
  readOk : Option Frame
  reconnectBackends : List BackendBehavior

/-- One iteration of `UsbCamera._capture_loop` (lines 165-193) acting on
the shared session state and the loop-local `consecutive_errors` counter.
Result: new state, new counter, and how many times `_reconnect` was
invoked (0 or 1). If the handle is missing or not open, reconnect and
continue; on a successful read encode and store the frame and reset the
counter; on a failed read increment the counter and reconnect (resetting
the counter) exactly when it reaches `maxErrors`. -/
def captureStep (camId : Nat) (s : Session) (errs : Nat) (it : LoopIter) :
    Session × Nat × Nat :=
  if s.cameraOpen = some true then
    match it.readOk with
    | some f => ({ s with frame := some (imencodeJpg 85 f) }, 0, 0)
    | none =>
      if errs + 1 ≥ maxErrors then
        ((usbReconnect s camId it.reconnectBackends).1, 0, 1)
      else
        (s, errs + 1, 0)
  else
    ((usbReconnect s camId it.reconnectBackends).1, errs, 1)

/-- Run `_capture_loop` over a finite list of iteration environments,
checking `is_running` at the top of every iteration as the code does.
Returns final state, final counter, and the total number of `_reconnect`
invocations. -/
def runLoop (camId : Nat) : Session → Nat → List LoopIter → Session × Nat × Nat
  | s, errs, [] => (s, errs, 0)
  | s, errs, it :: rest =>
    if s.isRunning then
      let r := captureStep camId s errs it
      let rr := runLoop camId r.1 r.2.1 rest
      (rr.1, rr.2.1, r.2.2 + rr.2.2)
    else
      (s, errs, 0)

/-- Backend kinds probed by `PiCamera.start` in `camera_utils.py`. -/
inductive PiBackend where
  | picamera
  | picamera2
  | opencv
deriving DecidableEq

/-- Mutable state of a `PiCamera` object: `backend` is the string field
`self.backend`, `camera` whether `self.camera` references an object,
`threadCount` the number of live capture-loop threads, `frame` the shared
encoded-frame buffer. -/
structure PiSession where
  backend : Option PiBackend
  camera : Bool
  isRunning : Bool
  threadCount : Nat
  frame : Option EncodedImage
deriving DecidableEq

/-- State of a freshly constructed `PiCamera`. -/
def piNew : PiSession :=
  { backend := none, camera := false, isRunning := false, threadCount := 0, frame := none }

/-- Environment for `PiCamera.start`: whether each library attempt
(picamera, picamera2, OpenCV via V4L2) completes without raising. -/
structure PiEnv where
  picameraOk : Bool
  picamera2Ok : Bool
  opencvOpens : Bool

/-- `PiCamera.start`, lines 221-276: try picamera, then picamera2, then
OpenCV; the first that initialises sets the backend, marks the session
running and starts a (new) capture-loop thread. There is no
already-running guard: the method re-initialises unconditionally. On the
final OpenCV failure the exception handler sets `self.camera = None` and
returns `False`, leaving `self.backend = "opencv"` and `is_running`
untouched. -/
def piStart (p : PiSession) (env : PiEnv) : PiSession × Bool :=
  if env.picameraOk then
    ({ p with backend := some PiBackend.picamera, camera := true, isRunning := true,
              threadCount := p.threadCount + 1 }, true)
  else if env.picamera2Ok then
    ({ p with backend := some PiBackend.picamera2, camera := true, isRunning := true,
              threadCount := p.threadCount + 1 }, true)
  else if env.opencvOpens then
    ({ p with backend := some PiBackend.opencv, camera := true, isRunning := true,
              threadCount := p.threadCount + 1 }, true)
  else
    ({ p with backend := some PiBackend.opencv, camera := false }, false)

/-- `PiCamera.get_frame`, lines 311-313. -/
def getPiFrame (p : PiSession) : Option EncodedImage :=
  p.frame

/-- `PiCamera.stop`, lines 329-346: clear the running flag, join, close
the backend object per kind, and in the `finally` block always set
`self.camera = None`; `self.backend` is left as it was. -/
def piStop (p : PiSession) : PiSession :=
  { p with isRunning := false, threadCount := 0, camera := false }

/-- Stopped and empty `PiCamera` session: running flag cleared, no live
capture thread, camera object dropped. -/
def piStopped (p : PiSession) : Prop :=
  p.isRunning = false ∧ p.threadCount = 0 ∧ p.camera = false

/-- What ends up in the photo file written by a `capture_photo` call:
either the output of a dedicated still-capture operation, or a frame
obtained from a synchronous `read()` and written with `imwrite`. -/
inductive Written where
  | stillOp
  | fromRead (f : Frame)
deriving DecidableEq

/-- Observable effects of one `capture_photo` call: whether a dedicated
still-capture operation or utility was invoked, how many synchronous
`read()` calls were made on the streaming handle, what was written to the
path, and whether the call raised. -/
structure PhotoResult where
  usedStillOp : Bool
  syncReads : Nat
  written : Option Written
  raised : Bool
deriving DecidableEq

/-- `PiCamera.capture_photo`, lines 315-327: picamera and picamera2
backends delegate to their dedicated capture calls; the OpenCV backend
performs one synchronous `self.camera.read()` and writes that frame
(raising when the read fails); with no backend it raises. Every branch
dereferences `self.camera` without a guard, so when the backend is set
but `self.camera` is `None` (reachable after a totally failed `start()`
or after `stop()`, both of which leave `self.backend` set) the attribute
access raises before any still operation or read happens. The buffered
`self.frame` is never consulted. -/
def piCapturePhoto (p : PiSession) (readResult : Option Frame) : PhotoResult :=
  match p.backend with
  | some PiBackend.picamera =>
    if p.camera then
      { usedStillOp := true, syncReads := 0, written := some Written.stillOp, raised := false }
    else
      { usedStillOp := false, syncReads := 0, written := none, raised := true }
  | some PiBackend.picamera2 =>
    if p.camera then
      { usedStillOp := true, syncReads := 0, written := some Written.stillOp, raised := false }
    else
      { usedStillOp := false, syncReads := 0, written := none, raised := true }
  | some PiBackend.opencv =>
    if p.camera then
      match readResult with
      | some f =>
        { usedStillOp := false, syncReads := 1, written := some (Written.fromRead f), raised := false }
      | none =>
        { usedStillOp := false, syncReads := 1, written := none, raised := true }
    else
      { usedStillOp := false, syncReads := 0, written := none, raised := true }
  | none =>
    { usedStillOp := false, syncReads := 0, written := none, raised := true }

/-- Backend kinds of `PiCameraStream` in `camera_pi.py`. -/
inductive StreamBackend where
  | picamera2
  | opencv
deriving DecidableEq

/-- Mutable state of a `PiCameraStream` object: `picam2` is `none` when
`self.picam2 is None` and `some started` when it references a Picamera2
object with the given started flag; `cap` similarly holds the `isOpened`
flag of a referenced `VideoCapture`; `stillConfig` whether
`self.still_config` was set. -/
structure StreamState where
  backend : Option StreamBackend
  picam2 : Option Bool
  cap : Option Bool
  stillConfig : Bool
deriving DecidableEq

/-- State of a freshly constructed `PiCameraStream`. -/
def streamNew : StreamState :=
  { backend := none, picam2 := none, cap := none, stillConfig := false }

/-- Environment for `PiCameraStream.open`: which steps of the picamera2
attempt complete without raising (imports; `Picamera2()` construction;
transform and preview configuration; `start()`; still-configuration
creation) and whether the OpenCV fallback capture reports `isOpened()`.
The `set_controls` calls are wrapped in their own try blocks and cannot
abort the attempt. -/
structure StreamEnv where
  importOk : Bool
  constructOk : Bool
  configureOk : Bool
  startOk : Bool
  stillConfigOk : Bool
  opencvOpens : Bool

/-- `PiCameraStream.open`, lines 20-68: try the picamera2 path; any
exception falls through to the OpenCV fallback WITHOUT closing whatever
part of the picamera2 state was already acquired. The fallback sets
`self.backend = "opencv"` and allocates a `VideoCapture`; when it is not
opened the method returns `False` without releasing it. -/
def streamOpen (st : StreamState) (env : StreamEnv) : StreamState × Bool :=
  let tryPi : StreamState × Bool :=
    if env.importOk then
      let s1 := { st with backend := some StreamBackend.picamera2 }
      if env.constructOk then
        let s2 := { s1 with picam2 := some false }
        if env.configureOk then
          if env.startOk then
            let s3 := { s2 with picam2 := some true }
            if env.stillConfigOk then ({ s3 with stillConfig := true }, true)
            else (s3, false)
          else (s2, false)
        else (s2, false)
      else (s1, false)
    else (st, false)
  if tryPi.2 then (tryPi.1, true)
  else
    let s4 := { tryPi.1 with backend := some StreamBackend.opencv, cap := some env.opencvOpens }
    if env.opencvOpens then (s4, true) else (s4, false)

/-- Environment for `PiCameraStream.capture_photo`: whether the
`libcamera-still` utility is on the path and succeeds, the outcome of a
synchronous `cap.read()`, and whether the picamera2 capture call
succeeds. -/
structure StreamPhotoEnv where
  stillUtilPresent : Bool
  stillUtilOk : Bool
  readResult : Option Frame
  pi2CaptureOk : Bool

/-- Shared fallback of `capture_photo` when no backend object is
available: raise. -/
def capturePhotoNoCamera : PhotoResult :=
  { usedStillOp := false, syncReads := 0, written := none, raised := true }

/-- `PiCameraStream.capture_photo`, lines 85-117: the picamera2 backend
uses the dedicated still path (re-raising on failure); the OpenCV backend
first invokes the external `libcamera-still` utility when present and,
if absent or failing, performs one synchronous `cap.read()` and writes
that frame. No buffered frame exists in this class at all. -/
def streamCapturePhoto (st : StreamState) (env : StreamPhotoEnv) : PhotoResult :=
  match st.backend with
  | some StreamBackend.picamera2 =>
    if st.picam2.isSome then
      if env.pi2CaptureOk then
        { usedStillOp := true, syncReads := 0, written := some Written.stillOp, raised := false }
      else
        { usedStillOp := true, syncReads := 0, written := none, raised := true }
    else capturePhotoNoCamera
  | some StreamBackend.opencv =>
    if st.cap.isSome then
      if env.stillUtilPresent && env.stillUtilOk then
        { usedStillOp := true, syncReads := 0, written := some Written.stillOp, raised := false }
      else
        match env.readResult with
        | some f =>
          { usedStillOp := env.stillUtilPresent, syncReads := 1,
            written := some (Written.fromRead f), raised := false }
        | none =>
          { usedStillOp := env.stillUtilPresent, syncReads := 1, written := none, raised := true }
    else capturePhotoNoCamera
  | none => capturePhotoNoCamera

/-- Backend environment that passes all three steps of
`_initialize_camera` at the first resolution candidate. -/
def goodBackend : BackendBehavior :=
  { opens := true
    probe := fun w h => { actualWidth := w, actualHeight := h, readFrame := some ⟨w, h, 0⟩ }
    verifyRead := some ⟨1920, 1080, 3⟩ }

/-- Backend whose `VideoCapture` never reports `isOpened()`. -/
def noOpenBackend : BackendBehavior :=
  { opens := false
    probe := fun w h => { actualWidth := w, actualHeight := h, readFrame := none }
    verifyRead := none }

/-- Backend that opens but never returns a frame during negotiation. -/
def noResolutionBackend : BackendBehavior :=
  { opens := true
    probe := fun w h => { actualWidth := w, actualHeight := h, readFrame := none }
    verifyRead := some ⟨1, 1, 1⟩ }

/-- Two backend lists that both fail completely but for different
reasons: every backend fails to open versus every backend opens and finds
no working resolution. -/
def cexBackendsA : List BackendBehavior :=
  [noOpenBackend, noOpenBackend]

/-- Companion list to `cexBackendsA` failing for a different reason. -/
def cexBackendsB : List BackendBehavior :=
  [noResolutionBackend, noResolutionBackend]

/-- Backend for the negotiation scenario of the spec: frames returned at
1920x1080 and 640x480 are far too small, only the 1280x720 candidate meets
the 90 percent bound. -/
def hdOnlyBackend : BackendBehavior :=
  { opens := true
    probe := fun w h =>
      if w = 1280 then
        { actualWidth := 1280, actualHeight := 720, readFrame := some ⟨1280, 720, 1⟩ }
      else
        { actualWidth := w, actualHeight := h, readFrame := some ⟨320, 240, 0⟩ }
    verifyRead := some ⟨1280, 720, 2⟩ }

/-- Backend whose driver reports a tiny negotiated resolution through
`cap.get` while the frame returned by `read()` is full size: the code
accepts the candidate because it only checks the frame dimensions. -/
def lowReportBackend : BackendBehavior :=
  { opens := true
    probe := fun w h =>
      if w = 1920 then
        { actualWidth := 320, actualHeight := 240, readFrame := some ⟨1920, 1080, 0⟩ }
      else
        { actualWidth := w, actualHeight := h, readFrame := none }
    verifyRead := some ⟨1920, 1080, 1⟩ }

/-- Running session with an open handle and an empty frame buffer. -/
def wSession : Session :=
  { cameraOpen := some true, isRunning := true, threadCount := 1, frame := none, err := none }

/-- Running session with an open handle and a buffered frame. -/
def wBufSession : Session :=
  { cameraOpen := some true, isRunning := true, threadCount := 1,
    frame := some (imencodeJpg 85 ⟨640, 480, 5⟩), err := none }

/-- Running session whose handle reference was dropped. -/
def wClosedSession : Session :=
  { cameraOpen := none, isRunning := true, threadCount := 1,
    frame := some (imencodeJpg 85 ⟨640, 480, 5⟩), err := none }

/-- Concrete frame used by witnesses. -/
def wFrame : Frame :=
  ⟨1280, 720, 9⟩

/-- Running `PiCamera` session on the picamera2 backend. -/
def runningPi : PiSession :=
  { backend := some PiBackend.picamera2, camera := true, isRunning := true,
    threadCount := 1, frame := none }

/-- Environment where only picamera2 initialises. -/
def piEnvPicam2 : PiEnv :=
  { picameraOk := false, picamera2Ok := true, opencvOpens := false }

/-- Environment where picamera initialises. -/
def piEnvPicamera : PiEnv :=
  { picameraOk := true, picamera2Ok := false, opencvOpens := false }

/-- Active `PiCamera` session on the OpenCV backend with a frame already
buffered (the buffered frame encodes raw frame data 7). -/
def bufferedPi : PiSession :=
  { backend := some PiBackend.opencv, camera := true, isRunning := true,
    threadCount := 1, frame := some (imencodeJpg 85 ⟨640, 480, 7⟩) }

/-- Stream environment where the picamera2 configuration step raises
after the Picamera2 object was constructed, and OpenCV then opens. -/
def streamEnvCfgFail : StreamEnv :=
  { importOk := true, constructOk := true, configureOk := false, startOk := true,
    stillConfigOk := true, opencvOpens := true }

/-- Stream environment with no picamera2 and no working OpenCV camera. -/
def streamEnvNoCam : StreamEnv :=
  { importOk := false, constructOk := false, configureOk := false, startOk := false,
    stillConfigOk := false, opencvOpens := false }

/-- Open `PiCameraStream` on the OpenCV backend. -/
def wStream : StreamState :=
  { backend := some StreamBackend.opencv, picam2 := none, cap := some true, stillConfig := false }

/-- Photo environment: no `libcamera-still` utility, read succeeds. -/
def wStreamEnv : StreamPhotoEnv :=
  { stillUtilPresent := false, stillUtilOk := false, readResult := some wFrame, pi2CaptureOk := true }

/-- C2 (amended): negotiation acceptance unfolded: a candidate is
accepted iff `read()` returned a frame whose dimensions are at least 90
percent of the requested ones (the test is on the frame, not on the
read-back `actual_width`/`actual_height`); the loop is first-fit: the
result is the first accepted candidate in caller order and the probed
candidates are exactly the rejected prefix plus the accepted one; in the
spec scenario where only 1280x720 meets the bound, 1280x720 is selected
and 640x480 is never probed. -/
theorem negotiation_first_fit :
    (∀ b c, candAccept b c = true ↔
      ∃ f, (b.probe c.1 c.2.1).readFrame = some f ∧
        c.1 * 9 ≤ f.width * 10 ∧ c.2.1 * 9 ≤ f.height * 10) ∧
    (∀ b cands,
      (negotiateCandidates b cands).1 = (cands.find? (candAccept b)).map (candResult b) ∧
      (negotiateCandidates b cands).2 =
        ((cands.takeWhile fun c => ! candAccept b c).map fun c => (c.1, c.2.1))
          ++ ((cands.find? (candAccept b)).map fun c => (c.1, c.2.1)).toList) ∧
    (negotiateCandidates hdOnlyBackend resolutionsToTest).1 = some (1280, 720, "HD") ∧
    (negotiateCandidates hdOnlyBackend resolutionsToTest).2 = [(1920, 1080), (1280, 720)] := by
  refine ⟨?_, ?_, by decide, by decide⟩
  · intro b c
    unfold candAccept acceptFrame
    cases h : (b.probe c.1 c.2.1).readFrame <;> simp [h]
  · intro b cands
    induction cands with
    | nil => simp [negotiateCandidates]
    | cons c rest ih =>
      obtain ⟨w, h, nm⟩ := c
      have hacc : candAccept b (w, h, nm) = acceptFrame w h (b.probe w h).readFrame := rfl
      cases ha : candAccept b (w, h, nm) with
      | true =>
        rw [hacc] at ha
        simp [negotiateCandidates, List.find?, List.takeWhile, ha, hacc, candResult]
      | false =>
        rw [hacc] at ha
        simp only [negotiateCandidates, List.find?, List.takeWhile, ha, hacc]
        simp only [Bool.not_false, if_true, cond_false]
        exact ⟨ih.1, by simp [ih.2]⟩

/-- C2 counterexample: the claim requires that a candidate is accepted
only when the actual negotiated width read back from the driver is at
least 0.9 times the requested width. With `lowReportBackend` the driver
reports 320x240 for the 1920x1080 request, yet the code accepts the
candidate (and stores 320x240 as the negotiated resolution) because the
returned frame itself is 1920x1080: 320 x 240 is far below the 90
percent bound 1728 x 972. -/
theorem negotiation_accepts_low_reported :
    (negotiateCandidates lowReportBackend resolutionsToTest).1 = some (320, 240, "Full HD") ∧
    320 * 10 < 1920 * 9 ∧ 240 * 10 < 1080 * 9 := by
  decide

/-- Selection trace of `_initialize_camera` characterised through the
standard first-satisfying-element functions. -/
theorem runBackends_selected :
    ∀ backends, (runBackends backends).selected =
      (backends.find? backendQualifies).map
        (fun b => (((backends.takeWhile fun x => ! backendQualifies x)).length, negotiatedOf b)) := by
  intro backends
  induction backends with
  | nil => rfl
  | cons b rest ih =>
    by_cases hb : b.opens = true
    · cases hneg : (negotiateCandidates b resolutionsToTest).1 with
      | some res =>
        cases hv : b.verifyRead with
        | some f =>
          have hq : backendQualifies b = true := by
            simp [backendQualifies, hb, hneg, hv]
          simp [runBackends, hb, hneg, hv, List.find?, List.takeWhile, hq, negotiatedOf]
        | none =>
          have hq : backendQualifies b = false := by
            simp [backendQualifies, hb, hneg, hv]
          simp only [runBackends, hb, hneg, hv, if_true, List.find?, List.takeWhile, hq,
            Bool.not_false, ih]
          cases hf : rest.find? backendQualifies <;> simp [hf]
      | none =>
        have hq : backendQualifies b = false := by
          simp [backendQualifies, hb, hneg]
        simp only [runBackends, hb, hneg, if_true, List.find?, List.takeWhile, hq,
          Bool.not_false, ih]
        cases hf : rest.find? backendQualifies <;> simp [hf]
    · have hb' : b.opens = false := by simpa using hb
      have hq : backendQualifies b = false := by
        simp [backendQualifies, hb']
      simp only [runBackends, hb', if_false, List.find?, List.takeWhile, hq,
        Bool.not_false, ih, Bool.false_eq_true]
      cases hf : rest.find? backendQualifies <;> simp [hf]

/-- C1 (amended): for every backend list and every combination of
open, negotiation and verification outcomes, `_initialize_camera`
selects exactly the first backend in iteration order that opens,
negotiates a resolution and passes the verification read (reporting its
position and negotiated resolution); when no backend qualifies it
returns failure carrying the single generic error sentence of line 150,
which does not enumerate the attempted backends or their failure
reasons. -/
theorem usb_select_first_qualifying :
    ∀ camId backends,
      initCamera camId backends =
        match backends.find? backendQualifies with
        | some b =>
          InitResult.success ((backends.takeWhile fun x => ! backendQualifies x).length)
            (negotiatedOf b)
        | none => InitResult.failure (usbAllBackendsError camId) := by
  intro camId backends
  unfold initCamera
  rw [runBackends_selected]
  cases backends.find? backendQualifies <;> rfl

/-- C1 counterexample: the claim requires the failure error to list every
attempted backend with its failure reason. `cexBackendsA` (both backends
fail to open) and `cexBackendsB` (both backends open but find no working
resolution) produce bit-for-bit the same error value although their
per-backend failure reasons differ, so the error cannot be listing the
attempted backends and reasons; the code stores one generic sentence and
only logs the details. -/
theorem usb_select_error_not_itemized :
    initCamera 0 cexBackendsA = InitResult.failure (usbAllBackendsError 0) ∧
    initCamera 0 cexBackendsB = InitResult.failure (usbAllBackendsError 0) ∧
    failureReasons cexBackendsA ≠ failureReasons cexBackendsB := by
  refine ⟨rfl, rfl, by decide⟩

/-- Running the capture loop over fewer failing reads than the threshold
leaves the session unchanged, increments only the local counter and never
invokes `_reconnect`. -/
theorem runLoop_fail_under (camId : Nat) (env : List BackendBehavior) :
    ∀ k errs s, s.isRunning = true → s.cameraOpen = some true → errs + k < maxErrors →
      runLoop camId s errs (List.replicate k ⟨none, env⟩) = (s, errs + k, 0) := by
  intro k
  induction k with
  | zero =>
    intro errs s h1 h2 h3
    simp [runLoop, List.replicate]
  | succ n ih =>
    intro errs s h1 h2 h3
    have h3' : errs + (n + 1) < 10 := h3
    have hlt : ¬ (errs + 1 ≥ maxErrors) := by
      show ¬ (errs + 1 ≥ 10)
      omega
    have hstep : captureStep camId s errs ⟨none, env⟩ = (s, errs + 1, 0) := by
      simp [captureStep, h2, hlt]
    rw [List.replicate_succ]
    simp only [runLoop, h1, if_true, hstep]
    rw [ih (errs + 1) s h1 h2 (by show errs + 1 + n < 10; omega)]
    simp only [Prod.mk.injEq]
    exact ⟨trivial, by omega, trivial⟩

/-- Running the capture loop over exactly enough failing reads to hit the
threshold invokes `_reconnect` exactly once (at the final iteration) and
resets the counter to 0, whatever the reconnect environment. -/
theorem runLoop_fail_hit (camId : Nat) (env : List BackendBehavior) :
    ∀ k errs s, s.isRunning = true → s.cameraOpen = some true →
      errs + k = maxErrors → 0 < k →
      runLoop camId s errs (List.replicate k ⟨none, env⟩) =
        ((usbReconnect s camId env).1, 0, 1) := by
  intro k
  induction k with
  | zero =>
    intro errs s _ _ _ hk
    exact absurd hk (by omega)
  | succ n ih =>
    intro errs s h1 h2 h3 _
    have h3' : errs + (n + 1) = 10 := h3
    by_cases hn : n = 0
    · subst hn
      have hge : errs + 1 ≥ maxErrors := by
        show errs + 1 ≥ 10
        omega
      have hstep : captureStep camId s errs ⟨none, env⟩ = ((usbReconnect s camId env).1, 0, 1) := by
        simp [captureStep, h2, hge]
      rw [List.replicate_succ]
      simp only [runLoop, h1, if_true, hstep]
    · have hlt : ¬ (errs + 1 ≥ maxErrors) := by
        show ¬ (errs + 1 ≥ 10)
        omega
      have hstep : captureStep camId s errs ⟨none, env⟩ = (s, errs + 1, 0) := by
        simp [captureStep, h2, hlt]
      rw [List.replicate_succ]
      simp only [runLoop, h1, if_true, hstep]
      rw [ih (errs + 1) s h1 h2 (by show errs + 1 + n = 10; omega) (by omega)]
      simp

/-- C3: in the production loop of an open running session, any number of
consecutive read failures below the threshold only increments the local
counter (no reconnect, session untouched); on the threshold-th
consecutive failure `_reconnect` is invoked exactly once and the counter
is reset to 0 regardless of the reconnect outcome (the statement is
universally quantified over the reconnect environment `env`); a
successful read resets the counter to 0 from any value, stores the newly
encoded frame and never invokes reconnect. -/
theorem read_failure_threshold_reconnect :
    ∀ camId s env, s.isRunning = true → s.cameraOpen = some true →
      (∀ k, k < maxErrors →
        runLoop camId s 0 (List.replicate k ⟨none, env⟩) = (s, k, 0)) ∧
      runLoop camId s 0 (List.replicate maxErrors ⟨none, env⟩) =
        ((usbReconnect s camId env).1, 0, 1) ∧
      (∀ errs f, captureStep camId s errs ⟨some f, env⟩ =
        ({ s with frame := some (imencodeJpg 85 f) }, 0, 0)) := by
  intro camId s env h1 h2
  refine ⟨?_, ?_, ?_⟩
  · intro k hk
    have := runLoop_fail_under camId env k 0 s h1 h2 (by simpa using hk)
    simpa using this
  · exact runLoop_fail_hit camId env maxErrors 0 s h1 h2 (by simp) (by decide)
  · intro errs f
    simp [captureStep, h2]

/-- C3 witness: concrete open session, 3 then 10 consecutive failures,
and a successful read with the counter at 5. -/
theorem read_failure_threshold_reconnect_case :
    wSession.isRunning = true ∧ wSession.cameraOpen = some true ∧
    runLoop 0 wSession 0 (List.replicate 3 ⟨none, []⟩) = (wSession, 3, 0) ∧
    runLoop 0 wSession 0 (List.replicate maxErrors ⟨none, []⟩) =
      ((usbReconnect wSession 0 []).1, 0, 1) ∧
    captureStep 0 wSession 5 ⟨some wFrame, []⟩ =
      ({ wSession with frame := some (imencodeJpg 85 wFrame) }, 0, 0) := by
  have h := read_failure_threshold_reconnect 0 wSession [] rfl rfl
  exact ⟨rfl, rfl, h.1 3 (by decide), h.2.1, h.2.2 5 wFrame⟩

/-- C4 (code bug evaluation): one successful `start()` leaves exactly one
capture-loop thread; after the threshold of consecutive read failures the
counter-triggered `_reconnect` calls `_initialize_camera`, which starts a
SECOND capture-loop thread while `is_running` stays `True` and the first
loop keeps running — two production threads now share the handle, where
the claim (and the spec scheduling model) requires exactly one. -/
theorem reconnect_starts_second_thread :
    (usbStart usbNew 0 [goodBackend]).2 = true ∧
    (usbStart usbNew 0 [goodBackend]).1.threadCount = 1 ∧
    (runLoop 0 (usbStart usbNew 0 [goodBackend]).1 0
      (List.replicate maxErrors ⟨none, [goodBackend]⟩)).2.2 = 1 ∧
    (runLoop 0 (usbStart usbNew 0 [goodBackend]).1 0
      (List.replicate maxErrors ⟨none, [goodBackend]⟩)).1.threadCount = 2 ∧
    (runLoop 0 (usbStart usbNew 0 [goodBackend]).1 0
      (List.replicate maxErrors ⟨none, [goodBackend]⟩)).1.isRunning = true := by
  decide

/-- State effect fact: `_initialize_camera` never writes the shared frame
buffer. -/
theorem initCameraSt_frame :
    ∀ s camId backends, ((initCameraSt s camId backends).1).frame = s.frame := by
  intro s camId backends
  unfold initCameraSt
  cases (runBackends backends).selected <;> simp

/-- C5: `get_frame` returns `none` directly after a successful or failed
`start()` from a fresh session (no read has happened yet); a capture-loop
iteration whose read succeeds leaves exactly the newly encoded frame in
the buffer; an iteration whose read fails, or that runs the
reconnect branch, leaves the buffer untouched — so `get_frame` always
returns the encoding of the most recent successful read, and `none`
before the first one. -/
theorem get_frame_latest_read :
    (∀ camId backends, getFrame (usbStart usbNew camId backends).1 = none) ∧
    (∀ camId s errs it f, s.cameraOpen = some true → it.readOk = some f →
      getFrame (captureStep camId s errs it).1 = some (imencodeJpg 85 f)) ∧
    (∀ camId s errs it, s.cameraOpen = some true → it.readOk = none →
      getFrame (captureStep camId s errs it).1 = getFrame s) ∧
    (∀ camId s errs it, s.cameraOpen ≠ some true →
      getFrame (captureStep camId s errs it).1 = getFrame s) := by
  refine ⟨?_, ?_, ?_, ?_⟩
  · intro camId backends
    show getFrame (if usbNew.isRunning then (usbNew, true) else initCameraSt usbNew camId backends).1 = none
    simp only [usbNew, if_false, Bool.false_eq_true]
    simp [getFrame, initCameraSt_frame, usbNew]
  · intro camId s errs it f h2 hro
    simp [captureStep, h2, hro, getFrame]
  · intro camId s errs it h2 hro
    by_cases h3 : errs + 1 ≥ maxErrors
    · simp [captureStep, h2, hro, h3, getFrame, usbReconnect, initCameraSt_frame]
    · simp [captureStep, h2, hro, h3, getFrame]
  · intro camId s errs it h2
    simp [captureStep, h2, getFrame, usbReconnect, initCameraSt_frame]

/-- C5 witness: fresh start gives an empty buffer; a successful read at
counter 0 stores its encoding; a failed read at counter 4 and a
closed-handle iteration both leave the buffer unchanged. -/
theorem get_frame_latest_read_case :
    getFrame (usbStart usbNew 0 [goodBackend]).1 = none ∧
    (wSession.cameraOpen = some true ∧
      getFrame (captureStep 0 wSession 0 ⟨some wFrame, []⟩).1 = some (imencodeJpg 85 wFrame)) ∧
    getFrame (captureStep 0 wSession 4 ⟨none, []⟩).1 = getFrame wSession ∧
    (wClosedSession.cameraOpen ≠ some true ∧
      getFrame (captureStep 0 wClosedSession 0 ⟨none, []⟩).1 = getFrame wClosedSession) := by
  have h := get_frame_latest_read
  exact ⟨h.1 0 [goodBackend],
    ⟨rfl, h.2.1 0 wSession 0 ⟨some wFrame, []⟩ wFrame rfl rfl⟩,
    h.2.2.1 0 wSession 4 ⟨none, []⟩ rfl rfl,
    ⟨by decide, h.2.2.2 0 wClosedSession 0 ⟨none, []⟩ (by decide)⟩⟩

/-- Step fact shared by the buffer-monotonicity proof: no capture-loop
iteration (read success, read failure, threshold reconnect or
closed-handle reconnect) ever empties the frame buffer. -/
theorem captureStep_frame_isSome :
    ∀ camId s errs it, (getFrame s).isSome = true →
      (getFrame (captureStep camId s errs it).1).isSome = true := by
  intro camId s errs it h
  by_cases h2 : s.cameraOpen = some true
  · cases hro : it.readOk with
    | some f => simp [captureStep, h2, hro, getFrame]
    | none =>
      by_cases h3 : errs + 1 ≥ maxErrors
      · simpa [captureStep, h2, hro, h3, getFrame, usbReconnect, initCameraSt_frame] using h
      · simpa [captureStep, h2, hro, h3, getFrame] using h
  · simpa [captureStep, h2, getFrame, usbReconnect, initCameraSt_frame] using h

/-- C10: the frame buffer is monotone: once it holds bytes, every further
capture-loop iteration keeps it non-empty (the loop only overwrites it
with newly encoded bytes), every finite run of the loop keeps it
non-empty across read failures and failed or successful reconnects, and
`stop()` leaves the buffer exactly as it was. -/
theorem frame_buffer_monotone :
    (∀ camId s errs it, (getFrame s).isSome = true →
      (getFrame (captureStep camId s errs it).1).isSome = true) ∧
    (∀ camId s errs trace, (getFrame s).isSome = true →
      (getFrame (runLoop camId s errs trace).1).isSome = true) ∧
    (∀ s, getFrame (usbStop s) = getFrame s) := by
  refine ⟨captureStep_frame_isSome, ?_, ?_⟩
  · intro camId s errs trace
    induction trace generalizing s errs with
    | nil =>
      intro h
      simpa [runLoop] using h
    | cons it rest ih =>
      intro h
      by_cases hr : s.isRunning = true
      · simp only [runLoop, hr, if_true]
        exact ih _ _ (captureStep_frame_isSome camId s errs it h)
      · have hr' : s.isRunning = false := by simpa using hr
        simpa [runLoop, hr'] using h
  · intro s
    simp [usbStop, getFrame]

/-- C10 witness: a session with a buffered frame keeps it across a failed
read, across ten failing reads with the reconnect they trigger, and
across `stop()`. -/
theorem frame_buffer_monotone_case :
    (getFrame wBufSession).isSome = true ∧
    (getFrame (captureStep 0 wBufSession 0 ⟨none, []⟩).1).isSome = true ∧
    (getFrame (runLoop 0 wBufSession 0 (List.replicate maxErrors ⟨none, []⟩)).1).isSome = true ∧
    getFrame (usbStop wBufSession) = getFrame wBufSession := by
  have h := frame_buffer_monotone
  exact ⟨rfl, h.1 0 wBufSession 0 ⟨none, []⟩ rfl,
    h.2.1 0 wBufSession 0 (List.replicate maxErrors ⟨none, []⟩) rfl,
    h.2.2 wBufSession⟩

/-- C8: `stop()` is idempotent for both camera classes: a second call
computes exactly the same state, and after each call the session is
stopped and empty in the claim sense (running flag cleared, no live
capture thread, handle released for `UsbCamera`, camera object dropped
for `PiCamera`). Both methods are total: no error is raised on an
already-stopped session. -/
theorem stop_idempotent_both :
    (∀ s, usbStop (usbStop s) = usbStop s ∧ usbStopped (usbStop s)) ∧
    (∀ p, piStop (piStop p) = piStop p ∧ piStopped (piStop p)) := by
  refine ⟨?_, ?_⟩
  · intro s
    obtain ⟨co, ir, tc, fr, er⟩ := s
    cases co <;> simp [usbStop, usbStopped]
  · intro p
    exact ⟨rfl, rfl, rfl, rfl⟩

/-- C9 (amended): `UsbCamera.start` on an already running session is a
no-op returning `True` with the state (handle, threads, buffer) exactly
unchanged; `PiCamera.start` has no such guard: whenever one of its
libraries initialises it starts an additional capture-loop thread, for
every prior state, running or not. -/
theorem start_noop_usb_only :
    (∀ s camId backends, s.isRunning = true → usbStart s camId backends = (s, true)) ∧
    (∀ p env, env.picameraOk = true →
      (piStart p env).1.threadCount = p.threadCount + 1) := by
  refine ⟨?_, ?_⟩
  · intro s camId backends h
    simp [usbStart, h]
  · intro p env h
    simp [piStart, h]

/-- C9 witness: a running `UsbCamera` session and a `PiCamera` session
with a working picamera library. -/
theorem start_noop_usb_only_case :
    wSession.isRunning = true ∧ usbStart wSession 0 [] = (wSession, true) ∧
    piEnvPicamera.picameraOk = true ∧
    (piStart runningPi piEnvPicamera).1.threadCount = runningPi.threadCount + 1 := by
  have h := start_noop_usb_only
  exact ⟨rfl, h.1 wSession 0 [] rfl, rfl, h.2 runningPi piEnvPicamera rfl⟩

/-- C9 counterexample: calling `start()` on an already running `PiCamera`
session re-initialises the backend and starts a second capture-loop
thread — it is not a no-op returning the current state. -/
theorem pi_start_restarts_thread :
    runningPi.isRunning = true ∧
    (piStart runningPi piEnvPicam2).2 = true ∧
    (piStart runningPi piEnvPicam2).1.threadCount = 2 := by
  decide

/-- C6 (amended): `capture_photo` never consults the buffered frame (the
result is invariant under changing the buffer); on an active OpenCV
backend — the one without a dedicated still mode, with the camera object
referenced — `PiCamera.capture_photo` always performs exactly one
synchronous `read()` on the streaming handle and writes that freshly
read frame, raising when the read fails; the `PiCameraStream` OpenCV
path behaves the same once the external `libcamera-still` utility is
absent. -/
theorem capture_photo_always_reads :
    (∀ p readResult b, piCapturePhoto { p with frame := b } readResult = piCapturePhoto p readResult) ∧
    (∀ p readResult, p.backend = some PiBackend.opencv → p.camera = true →
      (piCapturePhoto p readResult).usedStillOp = false ∧
      (piCapturePhoto p readResult).syncReads = 1 ∧
      (piCapturePhoto p readResult).written = readResult.map Written.fromRead ∧
      (piCapturePhoto p readResult).raised = readResult.isNone) ∧
    (∀ st env, st.backend = some StreamBackend.opencv → st.cap.isSome = true →
      env.stillUtilPresent = false →
      (streamCapturePhoto st env).usedStillOp = false ∧
      (streamCapturePhoto st env).syncReads = 1 ∧
      (streamCapturePhoto st env).written = env.readResult.map Written.fromRead) := by
  refine ⟨?_, ?_, ?_⟩
  · intro p readResult b
    rfl
  · intro p readResult h hc
    cases readResult <;> simp [piCapturePhoto, h, hc]
  · intro st env h hc hu
    cases hr : env.readResult <;> simp [streamCapturePhoto, h, hc, hu, hr]

/-- C6 witness: active OpenCV-backed `PiCamera` session (camera object
present) and `PiCameraStream` state with no still utility. -/
theorem capture_photo_always_reads_case :
    bufferedPi.backend = some PiBackend.opencv ∧ bufferedPi.camera = true ∧
    (piCapturePhoto bufferedPi (some wFrame)).syncReads = 1 ∧
    wStream.backend = some StreamBackend.opencv ∧ wStream.cap.isSome = true ∧
    wStreamEnv.stillUtilPresent = false ∧
    (streamCapturePhoto wStream wStreamEnv).syncReads = 1 := by
  have h := capture_photo_always_reads
  exact ⟨rfl, rfl, (h.2.1 bufferedPi (some wFrame) rfl rfl).2.1, rfl, rfl, rfl,
    (h.2.2 wStream wStreamEnv rfl rfl rfl).2.1⟩

/-- C6 counterexample: `bufferedPi` is an active OpenCV-backed session
with a frame already buffered (encoding of raw frame data 7); the claim
requires `capture_photo` to succeed by encoding that buffered frame with
no additional synchronous read. The code instead performs one synchronous
`read()` (count 1, not 0) and writes the freshly read frame (data 8),
not the buffered one. -/
theorem capture_photo_ignores_buffer :
    (getPiFrame bufferedPi).isSome = true ∧
    (piCapturePhoto bufferedPi (some ⟨640, 480, 8⟩)).syncReads = 1 ∧
    (piCapturePhoto bufferedPi (some ⟨640, 480, 8⟩)).written =
      some (Written.fromRead ⟨640, 480, 8⟩) ∧
    (piCapturePhoto bufferedPi (some ⟨640, 480, 8⟩)).written ≠
      some (Written.fromRead ⟨640, 480, 7⟩) := by
  decide

/-- C7 (amended): in `UsbCamera._initialize_camera` every failed backend
attempt releases its handle before the next backend is tried or the
final error is reported, and a totally failed initialisation leaves the
session referencing only a released (not open) handle. -/
theorem usb_failure_releases_handle :
    (∀ backends, ∀ a ∈ (runBackends backends).failures, a.released = true) ∧
    (∀ s camId backends, backends.isEmpty = false →
      (initCameraSt s camId backends).2 = false →
      (initCameraSt s camId backends).1.cameraOpen = some false) := by
  refine ⟨?_, ?_⟩
  · intro backends
    induction backends with
    | nil =>
      intro a ha
      simp [runBackends] at ha
    | cons b rest ih =>
      intro a ha
      by_cases hb : b.opens = true
      · cases hneg : (negotiateCandidates b resolutionsToTest).1 with
        | some res =>
          cases hv : b.verifyRead with
          | some f =>
            simp [runBackends, hb, hneg, hv] at ha
          | none =>
            simp only [runBackends, hb, hneg, hv, if_true] at ha
            rcases List.mem_cons.mp ha with h | h
            · rw [h]
            · exact ih a h
        | none =>
          simp only [runBackends, hb, hneg, if_true] at ha
          rcases List.mem_cons.mp ha with h | h
          · rw [h]
          · exact ih a h
      · have hb' : b.opens = false := by simpa using hb
        simp only [runBackends, hb', Bool.false_eq_true, if_false] at ha
        rcases List.mem_cons.mp ha with h | h
        · rw [h]
        · exact ih a h
  · intro s camId backends he hf
    unfold initCameraSt at hf ⊢
    cases hsel : (runBackends backends).selected with
    | some p => simp [hsel] at hf
    | none => simp [hsel, he]

/-- C7 witness: a single backend that fails to open is recorded as a
released attempt, and the failed initialisation leaves the session with
a released handle. -/
theorem usb_failure_releases_handle_case :
    ((⟨false, false, false, true⟩ : Attempt) ∈ (runBackends [noOpenBackend]).failures ∧
      (⟨false, false, false, true⟩ : Attempt).released = true) ∧
    ([noOpenBackend].isEmpty = false ∧
      (initCameraSt usbNew 0 [noOpenBackend]).2 = false ∧
      (initCameraSt usbNew 0 [noOpenBackend]).1.cameraOpen = some false) := by
  have h := usb_failure_releases_handle
  exact ⟨⟨by decide, h.1 [noOpenBackend] ⟨false, false, false, true⟩ (by decide)⟩,
    ⟨rfl, by decide, h.2 usbNew 0 [noOpenBackend] rfl (by decide)⟩⟩

/-- C7 counterexample: in `PiCameraStream.open` with `streamEnvCfgFail`
the picamera2 attempt fails after the `Picamera2` object was constructed;
the method proceeds to the next backend (OpenCV, which opens) with
`self.picam2` still referencing the partially acquired, never closed
handle (closing would have reset it to none). With `streamEnvNoCam` the
OpenCV attempt fails and the method reports the error while `self.cap`
still references the unreleased, unopened capture object. Both refute
the claim that the partial handle is released before the error or the
next backend attempt. -/
theorem stream_open_keeps_partial_handle :
    ((streamOpen streamNew streamEnvCfgFail).2 = true ∧
      (streamOpen streamNew streamEnvCfgFail).1.backend = some StreamBackend.opencv ∧
      (streamOpen streamNew streamEnvCfgFail).1.picam2 = some false) ∧
    ((streamOpen streamNew streamEnvNoCam).2 = false ∧
      (streamOpen streamNew streamEnvNoCam).1.cap = some false) := by
  decide
